import Mathlib

/-!
Verification of the NFL GM Simulator's Cap & Transaction Engine spec.

The repository sources provided contain the frontend (Next.js/TypeScript)
components and the project documentation; the backend cap-math service
(`app/services/cap.py`) and the transaction engine routes are referenced by
the frontend API client and by the docs but their code is not among the
sources.  Those parts are therefore modelled from the spec text, as flagged
on each definition; the frontend release handlers (`handlePreviewRelease`,
`handleCommitRelease`) are embedded directly from
`frontend/components/transaction-panel.tsx`.

Money is modelled in whole dollars: `Nat` where the spec promises
non-negative integers, and `Int` where differences (cap space, savings)
can go negative.  The frontend's percentage-share widget
(`calcCapShares`) computes in IEEE-754 double precision and is not
embedded here: its floating-point rounding behaviour has no faithful
image in exact arithmetic.
-/

namespace NFLGM

/-- Modelled from the spec: the typed errors of CapMath
(`InvalidProrationSchedule`, `InvalidContractYear`), §7 Error Handling.
The backend `app/services/cap.py` is not among the provided sources. -/
inductive CapError where
  | InvalidProrationSchedule
  | InvalidContractYear
deriving DecidableEq, Repr

/-- Modelled from the spec: one `ContractYear` row — `base_salary`,
`signing_bonus_proration`, `roster_bonus`, `workout_bonus`,
`guaranteed_amount`, keyed by season (§3 Data Model).  The backend models
are not among the provided sources. -/
structure ContractYear where
  season : Nat
  base_salary : Int
  signing_bonus_proration : Int
  roster_bonus : Int
  workout_bonus : Int
  guaranteed_amount : Int
deriving DecidableEq, Repr

/-- Modelled from the spec: a contract is its list of contract-year rows. -/
structure Contract where
  years : List ContractYear
deriving DecidableEq, Repr

/-- Modelled from the spec: `annual_proration(total_signing_bonus,
proration_years)` divides the bonus evenly across `proration_years` (1–5),
failing with `InvalidProrationSchedule` outside that range; every returned
amount is a whole number of dollars and the non-divisible remainder is
assigned to the first year (§4.1, §8 Rounding, §9 remainder policy).
The backend `app/services/cap.py` is not among the provided sources. -/
def annual_proration (total_signing_bonus : Nat) (proration_years : Nat) :
    Except CapError (List Nat) :=
  if proration_years < 1 || proration_years > 5 then
    .error .InvalidProrationSchedule
  else
    let base := total_signing_bonus / proration_years
    let rem := total_signing_bonus % proration_years
    .ok ((base + rem) :: List.replicate (proration_years - 1) base)

/-- Modelled from the spec: `cap_hit(contract_year) = base_salary +
signing_bonus_proration + roster_bonus + workout_bonus`; no negative inputs
permitted, failing with `InvalidContractYear` otherwise (§4.1).
The backend `app/services/cap.py` is not among the provided sources. -/
def cap_hit (cy : ContractYear) : Except CapError Int :=
  if cy.base_salary < 0 || cy.signing_bonus_proration < 0 ||
      cy.roster_bonus < 0 || cy.workout_bonus < 0 then
    .error .InvalidContractYear
  else
    .ok (cy.base_salary + cy.signing_bonus_proration + cy.roster_bonus +
      cy.workout_bonus)

/-- Modelled from the spec: the `(savings, dead_money)` pair returned by
`release_savings`, with the post–June-1 deferred charge reported separately
as `dead_money_future`, "not folded into `dead_money`" (§4.1). -/
structure ReleaseResult where
  savings : Int
  dead_money : Int
  dead_money_future : Int
deriving DecidableEq, Repr

/-- Modelled from the spec: all remaining (current + future) signing-bonus
proration of a contract as of a season (§4.1 pre–June-1 acceleration). -/
def remainingProration (c : Contract) (season : Nat) : Int :=
  ((c.years.filter (fun y => season ≤ y.season)).map
    (fun y => y.signing_bonus_proration)).sum

/-- Modelled from the spec: the future-season (strictly after the given
season) signing-bonus proration of a contract (§4.1 post–June-1 deferral). -/
def futureProration (c : Contract) (season : Nat) : Int :=
  ((c.years.filter (fun y => season < y.season)).map
    (fun y => y.signing_bonus_proration)).sum

/-- Modelled from the spec: look up the contract-year row for the given
season. -/
def currentYear (c : Contract) (season : Nat) : Option ContractYear :=
  c.years.find? (fun y => y.season == season)

/-- Modelled from the spec: `release_savings(contract, season, post_june_1)`
(§4.1).  Pre–June-1: all remaining proration accelerates into the current
season's dead money plus the current season's guaranteed cash;
`savings = cap_hit(current_season) − dead_money`.  Post–June-1: only the
current season's proration is dead money this season; future proration is
returned separately as `dead_money_future`; savings is computed against the
current-year cap hit only.  The backend `app/services/cap.py` is not among
the provided sources. -/
def release_savings (c : Contract) (season : Nat) (post_june_1 : Bool) :
    Except CapError ReleaseResult :=
  match currentYear c season with
  | none => .error .InvalidContractYear
  | some cy =>
    match cap_hit cy with
    | .error e => .error e
    | .ok hit =>
      if post_june_1 then
        let dead := cy.signing_bonus_proration
        .ok { savings := hit - dead, dead_money := dead,
              dead_money_future := futureProration c season }
      else
        let dead := remainingProration c season + cy.guaranteed_amount
        .ok { savings := hit - dead, dead_money := dead,
              dead_money_future := 0 }

/-- Modelled from the spec: a player's current status field, owned by the
roster collaborator and read by the player-eligibility check (§4.2). -/
inductive PlayerStatus where
  | active
  | released
  | traded
deriving DecidableEq, Repr

/-- Modelled from the spec: `Transaction.type ∈ {sign, release, trade}`
(§3 Data Model). -/
inductive TxType where
  | sign
  | release
  | trade
deriving DecidableEq, Repr

/-- Modelled from the spec: persisted `Transaction.status ∈ {committed,
undone}` (`previewed` is never persisted, §3 Data Model). -/
inductive TxStatus where
  | committed
  | undone
deriving DecidableEq, Repr

/-- Modelled from the spec: a `TransactionLeg` — per-team `cap_delta`,
affected player, roster counts before/after (§3 Data Model). -/
structure TxLeg where
  cap_delta : Int
  player_id : Nat
  roster_count_before : Int
  roster_count_after : Int
deriving DecidableEq, Repr

/-- Modelled from the spec: the `TransactionAudit` record of the exact
inputs and computed deltas, the source of truth for undo (§3 Data Model). -/
structure TxAudit where
  player_id : Nat
  prior_status : PlayerStatus
  cap_delta : Int
  roster_delta : Int
deriving DecidableEq, Repr

/-- Modelled from the spec: a persisted `Transaction` with its legs and
audit record (§3 Data Model). -/
structure Transaction where
  id : Nat
  txType : TxType
  status : TxStatus
  cap_delta : Int
  legs : List TxLeg
  audit : TxAudit
deriving DecidableEq, Repr

/-- Modelled from the spec: a validated move description handed to the
engine — its type, subject player, and the CapMath-computed cap and roster
deltas (§4.3). -/
structure Move where
  txType : TxType
  player_id : Nat
  cap_delta : Int
  roster_delta : Int
deriving DecidableEq, Repr

/-- Modelled from the spec: the structured rejection reasons of
RuleValidator — `CapInsufficient` carries the exact shortfall (§4.2, §7). -/
inductive RejectReason where
  | CapInsufficient (shortfall : Int)
  | RosterLimitExceeded (overBy : Int)
  | PlayerIneligible (player_id : Nat)
deriving DecidableEq, Repr

/-- Modelled from the spec: the engine's state snapshot — a team's cap
space and roster count, the keyed player-status table, and the persisted
transaction log with its id counter (§5, §9 versioned snapshots). -/
structure EngineState where
  capSpace : Int
  rosterCount : Int
  rosterLimit : Int
  status : Nat → PlayerStatus
  transactions : List Transaction
  nextId : Nat

/-- Modelled from the spec: the cap-room rule
`team.cap_space(after_move) ≥ 0`; on failure returns the shortfall (§4.2). -/
def capRoomCheck (capSpaceAfter : Int) : Option RejectReason :=
  if capSpaceAfter < 0 then some (.CapInsufficient (-capSpaceAfter)) else none

/-- Modelled from the spec: the roster-limit rule
`roster_count_after ≤ limit` (§4.2). -/
def rosterLimitCheck (limit rosterCountAfter : Int) : Option RejectReason :=
  if limit < rosterCountAfter then
    some (.RosterLimitExceeded (rosterCountAfter - limit))
  else none

/-- Modelled from the spec: player eligibility — a player already released
or traded cannot be the subject of a new release/trade (§4.2). -/
def eligibilityCheck (st : EngineState) (m : Move) : Option RejectReason :=
  if m.txType ≠ TxType.sign ∧ st.status m.player_id ≠ PlayerStatus.active then
    some (.PlayerIneligible m.player_id)
  else none

/-- Modelled from the spec: the `PreviewResult` shape returned by both
preview and a rejected commit (§6 External Interfaces). -/
structure PreviewResult where
  allowed : Bool
  cap_delta : Int
  cap_space_after : Int
  roster_delta : Int
  roster_count_after : Int
  reasons : List RejectReason
deriving DecidableEq, Repr

/-- Modelled from the spec: `preview` runs CapMath deltas and RuleValidator
against the current state and returns the full result without persisting
anything; all violations are reported, not just the first (§4.2, §4.3).
The backend transaction engine is not among the provided sources. -/
def preview (st : EngineState) (m : Move) : PreviewResult :=
  let capAfter := st.capSpace + m.cap_delta
  let rosterAfter := st.rosterCount + m.roster_delta
  let reasons := (capRoomCheck capAfter).toList ++
    (rosterLimitCheck st.rosterLimit rosterAfter).toList ++
    (eligibilityCheck st m).toList
  { allowed := reasons.isEmpty, cap_delta := m.cap_delta,
    cap_space_after := capAfter, roster_delta := m.roster_delta,
    roster_count_after := rosterAfter, reasons := reasons }

/-- Modelled from the spec: the player status resulting from applying a
move of each type (§4.3 commit side effects). -/
def statusAfter (t : TxType) : PlayerStatus :=
  match t with
  | .sign => .active
  | .release => .released
  | .trade => .traded

/-- Modelled from the spec: the `Transaction` + leg + audit rows persisted
by a successful commit, capturing the exact inputs and deltas (§3, §4.3). -/
def mkTx (st : EngineState) (m : Move) : Transaction :=
  { id := st.nextId, txType := m.txType, status := .committed,
    cap_delta := m.cap_delta,
    legs := [{ cap_delta := m.cap_delta, player_id := m.player_id,
               roster_count_before := st.rosterCount,
               roster_count_after := st.rosterCount + m.roster_delta }],
    audit := { player_id := m.player_id,
               prior_status := st.status m.player_id,
               cap_delta := m.cap_delta, roster_delta := m.roster_delta } }

/-- Modelled from the spec: applying a validated move — cap and roster
deltas, the player-status side effect, and persisting the transaction rows
in one atomic unit (§4.3 Commit). -/
def applyMove (st : EngineState) (m : Move) : EngineState :=
  { capSpace := st.capSpace + m.cap_delta,
    rosterCount := st.rosterCount + m.roster_delta,
    rosterLimit := st.rosterLimit,
    status := fun pid =>
      if pid = m.player_id then statusAfter m.txType else st.status pid,
    transactions := st.transactions ++ [mkTx st m],
    nextId := st.nextId + 1 }

/-- Modelled from the spec: `commit` re-runs validation against the
current state (never trusting a stale preview); on success it persists the
transaction and applies the side effects, on failure it persists nothing
and returns the same structured rejection as preview (§4.3).
The backend transaction engine is not among the provided sources. -/
def commit (st : EngineState) (m : Move) :
    EngineState × Except PreviewResult Transaction :=
  let v := preview st m
  if v.allowed then (applyMove st m, .ok (mkTx st m)) else (st, .error v)

/-- Modelled from the spec: the undo-path errors (§6, §7). -/
inductive UndoError where
  | UnsupportedUndo
  | NotFound
deriving DecidableEq, Repr

/-- Modelled from the spec: `undo(transaction_id)` — release transactions
only; reads the audit record, reverses the player-status change and the
cap/roster side effects, marks the transaction `undone` and leaves the row,
legs and audit in place; fails with `UnsupportedUndo` for sign/trade and
`NotFound` for an unknown id (§4.3 Undo).  The backend transaction engine
is not among the provided sources. -/
def undo (st : EngineState) (txId : Nat) :
    EngineState × Except UndoError Transaction :=
  match st.transactions.find? (fun t => t.id == txId) with
  | none => (st, .error .NotFound)
  | some tx =>
    if tx.txType = TxType.release then
      let restored : EngineState :=
        { capSpace := st.capSpace - tx.audit.cap_delta,
          rosterCount := st.rosterCount - tx.audit.roster_delta,
          rosterLimit := st.rosterLimit,
          status := fun pid =>
            if pid = tx.audit.player_id then tx.audit.prior_status
            else st.status pid,
          transactions := st.transactions.map (fun t =>
            if t.id == txId then { t with status := TxStatus.undone } else t),
          nextId := st.nextId }
      (restored, .ok { tx with status := TxStatus.undone })
    else (st, .error .UnsupportedUndo)

/-- Embedded from `frontend/components/transaction-panel.tsx`: the fields
of `PlayerSummary` used by the panel and the roster-insights widget
(`player.id`, `player.position`). -/
structure FePlayer where
  id : Nat
  position : String
deriving DecidableEq, Repr

/-- Embedded from `frontend/components/transaction-panel.tsx`: the release
payload `{ player_id, post_june_1 }` built by the panel. -/
structure ReleasePayload where
  player_id : Nat
  post_june_1 : Bool
deriving DecidableEq, Repr

/-- Embedded from `frontend/lib/api.ts`: the `TransactionRequest` body
`{ team_code, type, payload }` sent to `/transactions/preview` and
`/transactions`. -/
structure FeTransactionRequest where
  team_code : String
  txType : TxType
  payload : ReleasePayload
deriving DecidableEq, Repr

/-- Embedded from `handlePreviewRelease` in `transaction-panel.tsx`: the
guard `if (!teamCode || !player) return;` (a JS falsy check, so the empty
string also aborts) followed by `previewTransaction({ team_code, type:
"release", payload: { player_id: player.id, post_june_1: false } })`.
Returns the request body sent, or `none` when no request is issued. -/
def handlePreviewRelease (teamCode : Option String) (player : Option FePlayer) :
    Option FeTransactionRequest :=
  match teamCode, player with
  | some tc, some p =>
    if tc.isEmpty then none
    else some { team_code := tc, txType := TxType.release,
                payload := { player_id := p.id, post_june_1 := false } }
  | _, _ => none

/-- Embedded from `handleCommitRelease` in `transaction-panel.tsx`: the
same guard followed by `commitTransaction({ team_code, type: "release",
payload: { player_id: player.id, post_june_1: false } })`. -/
def handleCommitRelease (teamCode : Option String) (player : Option FePlayer) :
    Option FeTransactionRequest :=
  match teamCode, player with
  | some tc, some p =>
    if tc.isEmpty then none
    else some { team_code := tc, txType := TxType.release,
                payload := { player_id := p.id, post_june_1 := false } }
  | _, _ => none

/-- C2: for every total signing bonus and every proration-years value in
[1,5], `annual_proration` succeeds with whole-dollar per-year amounts
(integrality is by construction: the amounts are natural numbers), the
amounts sum back exactly to the total, the schedule has one amount per
year, and the non-divisible remainder is assigned deterministically to the
first year while every later year gets the even floor share. -/
theorem c2_proration_sums_back (total years : Nat)
    (h1 : 1 ≤ years) (h2 : years ≤ 5) :
    annual_proration total years =
      .ok ((total / years + total % years) ::
        List.replicate (years - 1) (total / years)) ∧
    ((total / years + total % years) ::
        List.replicate (years - 1) (total / years)).sum = total ∧
    ((total / years + total % years) ::
        List.replicate (years - 1) (total / years)).length = years := by
  obtain ⟨k, rfl⟩ : ∃ k, years = k + 1 := ⟨years - 1, by omega⟩
  refine ⟨?_, ?_, ?_⟩
  · unfold annual_proration
    rw [if_neg]
    simp only [Bool.or_eq_true, decide_eq_true_eq, not_or]
    omega
  · have hdm := Nat.div_add_mod total (k + 1)
    simp only [List.sum_cons, List.sum_replicate, smul_eq_mul,
      Nat.add_sub_cancel]
    rw [Nat.succ_mul] at hdm
    set q := total / (k + 1) with hq
    set m := k * q with hm
    omega
  · simp

/-- C2 witness: a 10,000,003-dollar bonus prorated over 3 years yields the
integer amounts [3333335, 3333334, 3333334], which sum back to exactly
10,000,003. -/
theorem c2_proration_sums_back_witness :
    annual_proration 10000003 3 =
      .ok ((10000003 / 3 + 10000003 % 3) ::
        List.replicate (3 - 1) (10000003 / 3)) ∧
    ((10000003 / 3 + 10000003 % 3) ::
        List.replicate (3 - 1) (10000003 / 3)).sum = 10000003 ∧
    ((10000003 / 3 + 10000003 % 3) ::
        List.replicate (3 - 1) (10000003 / 3)).length = 3 :=
  c2_proration_sums_back 10000003 3 (by decide) (by decide)

/-- C3: `annual_proration` fails with `InvalidProrationSchedule` exactly
when `proration_years < 1` or `proration_years > 5`; for every in-range
schedule it succeeds (so an out-of-range schedule is never silently
clamped to a valid one). -/
theorem c3_proration_error_iff (total years : Nat) :
    (annual_proration total years =
        .error CapError.InvalidProrationSchedule ↔ (years < 1 ∨ 5 < years)) ∧
    (1 ≤ years → years ≤ 5 →
      ∃ amounts, annual_proration total years = .ok amounts) := by
  constructor
  · unfold annual_proration
    by_cases h : years < 1 ∨ 5 < years
    · rw [if_pos (by simpa using h)]
      simpa using h
    · rw [if_neg (by simpa using h)]
      simp only [reduceCtorEq, false_iff]
      exact h
  · intro h1 h2
    refine ⟨(total / years + total % years) ::
      List.replicate (years - 1) (total / years), ?_⟩
    unfold annual_proration
    rw [if_neg]
    simp only [Bool.or_eq_true, decide_eq_true_eq, not_or]
    omega

/-- C3 witness: a 0-year schedule is rejected with
`InvalidProrationSchedule` and a 4-year schedule succeeds. -/
theorem c3_proration_error_iff_witness :
    annual_proration 7 0 = .error CapError.InvalidProrationSchedule ∧
    ∃ amounts, annual_proration 7 4 = .ok amounts :=
  ⟨(c3_proration_error_iff 7 0).1.mpr (Or.inl (by decide)),
   (c3_proration_error_iff 7 4).2 (by decide) (by decide)⟩

/-- C4: for every contract year whose base salary, proration, roster bonus
and workout bonus are all non-negative, `cap_hit` returns exactly their
sum; if any of the four is negative it fails with `InvalidContractYear`. -/
theorem c4_cap_hit_sum_or_error (cy : ContractYear) :
    (0 ≤ cy.base_salary → 0 ≤ cy.signing_bonus_proration →
      0 ≤ cy.roster_bonus → 0 ≤ cy.workout_bonus →
      cap_hit cy = .ok (cy.base_salary + cy.signing_bonus_proration +
        cy.roster_bonus + cy.workout_bonus)) ∧
    (cy.base_salary < 0 ∨ cy.signing_bonus_proration < 0 ∨
      cy.roster_bonus < 0 ∨ cy.workout_bonus < 0 →
      cap_hit cy = .error CapError.InvalidContractYear) := by
  constructor
  · intro h1 h2 h3 h4
    unfold cap_hit
    rw [if_neg]
    simp only [Bool.or_eq_true, decide_eq_true_eq, not_or]
    omega
  · intro h
    unfold cap_hit
    rw [if_pos]
    simp only [Bool.or_eq_true, decide_eq_true_eq]
    omega

/-- C4 witness: a concrete well-formed contract year sums to its cap hit,
and a year with a negative roster bonus is rejected. -/
theorem c4_cap_hit_sum_or_error_witness :
    cap_hit { season := 2024, base_salary := 5000000,
              signing_bonus_proration := 1000000, roster_bonus := 250000,
              workout_bonus := 50000, guaranteed_amount := 0 } =
      .ok 6300000 ∧
    cap_hit { season := 2024, base_salary := 5000000,
              signing_bonus_proration := 1000000, roster_bonus := -1,
              workout_bonus := 50000, guaranteed_amount := 0 } =
      .error CapError.InvalidContractYear :=
  ⟨(c4_cap_hit_sum_or_error _).1 (by decide) (by decide) (by decide)
      (by decide),
   (c4_cap_hit_sum_or_error _).2 (Or.inr (Or.inr (Or.inl (by decide))))⟩

/-- C1: for every contract whose remaining signing-bonus proration years
are exactly three years of 1,000,000 dollars each in seasons N, N+1, N+2
(any earlier rows lie strictly before season N, the current-season row has
no guaranteed cash and well-formed money fields), a pre–June-1 release in
season N returns `dead_money = 3,000,000` with
`savings = cap_hit(season N) − dead_money`, while a post–June-1 release
returns `dead_money = 1,000,000` together with
`dead_money_future = 2,000,000` reported separately and never added into
`dead_money`. -/
theorem c1_pre_post_june1_split
    (front : List ContractYear) (y0 y1 y2 : ContractYear) (N : Nat)
    (hfront : ∀ y ∈ front, y.season < N)
    (hs0 : y0.season = N) (hs1 : y1.season = N + 1) (hs2 : y2.season = N + 2)
    (hp0 : y0.signing_bonus_proration = 1000000)
    (hp1 : y1.signing_bonus_proration = 1000000)
    (hp2 : y2.signing_bonus_proration = 1000000)
    (hg : y0.guaranteed_amount = 0)
    (hb : 0 ≤ y0.base_salary) (hr : 0 ≤ y0.roster_bonus)
    (hw : 0 ≤ y0.workout_bonus) :
    ∃ hit : Int, cap_hit y0 = .ok hit ∧
      release_savings ⟨front ++ [y0, y1, y2]⟩ N false =
        .ok { savings := hit - 3000000, dead_money := 3000000,
              dead_money_future := 0 } ∧
      release_savings ⟨front ++ [y0, y1, y2]⟩ N true =
        .ok { savings := hit - 1000000, dead_money := 1000000,
              dead_money_future := 2000000 } := by
  have hhit : cap_hit y0 = .ok (y0.base_salary + y0.signing_bonus_proration +
      y0.roster_bonus + y0.workout_bonus) := by
    unfold cap_hit
    rw [if_neg]
    simp only [Bool.or_eq_true, decide_eq_true_eq, not_or]
    omega
  have hcur : currentYear ⟨front ++ [y0, y1, y2]⟩ N = some y0 := by
    unfold currentYear
    rw [List.find?_append]
    have hnone : front.find? (fun y => y.season == N) = none := by
      rw [List.find?_eq_none]
      intro y hy
      have := hfront y hy
      simp only [beq_iff_eq]
      omega
    rw [hnone]
    simp [hs0]
  have hfilterFront :
      front.filter (fun y => decide (N ≤ y.season)) = [] := by
    rw [List.filter_eq_nil_iff]
    intro y hy
    have := hfront y hy
    simp only [decide_eq_true_eq]
    omega
  have hfilterFrontLt :
      front.filter (fun y => decide (N < y.season)) = [] := by
    rw [List.filter_eq_nil_iff]
    intro y hy
    have := hfront y hy
    simp only [decide_eq_true_eq]
    omega
  have hrem : remainingProration ⟨front ++ [y0, y1, y2]⟩ N = 3000000 := by
    unfold remainingProration
    rw [List.filter_append, hfilterFront]
    simp [List.filter, hs0, hs1, hs2, hp0, hp1, hp2]
  have hfut : futureProration ⟨front ++ [y0, y1, y2]⟩ N = 2000000 := by
    unfold futureProration
    rw [List.filter_append, hfilterFrontLt]
    simp [List.filter, hs0, hs1, hs2, hp1, hp2]
  refine ⟨y0.base_salary + y0.signing_bonus_proration + y0.roster_bonus +
    y0.workout_bonus, hhit, ?_, ?_⟩
  · simp [release_savings, hcur, hhit, hrem, hg]
  · simp [release_savings, hcur, hhit, hfut, hp0]

/-- C1 witness: the concrete three-year contract with 1,000,000-dollar
prorations in 2024–2026 and a 4,000,000-dollar base in 2024 yields dead
money 3,000,000 (savings 2,000,000) pre–June-1 and dead money 1,000,000
with 2,000,000 deferred (savings 4,000,000) post–June-1. -/
theorem c1_pre_post_june1_split_witness :
    ∃ hit : Int,
      cap_hit { season := 2024, base_salary := 4000000,
                signing_bonus_proration := 1000000, roster_bonus := 0,
                workout_bonus := 0, guaranteed_amount := 0 } = .ok hit ∧
      release_savings
        ⟨[] ++ [{ season := 2024, base_salary := 4000000,
                  signing_bonus_proration := 1000000, roster_bonus := 0,
                  workout_bonus := 0, guaranteed_amount := 0 },
                { season := 2025, base_salary := 4000000,
                  signing_bonus_proration := 1000000, roster_bonus := 0,
                  workout_bonus := 0, guaranteed_amount := 0 },
                { season := 2026, base_salary := 4000000,
                  signing_bonus_proration := 1000000, roster_bonus := 0,
                  workout_bonus := 0, guaranteed_amount := 0 }]⟩ 2024 false =
        .ok { savings := hit - 3000000, dead_money := 3000000,
              dead_money_future := 0 } ∧
      release_savings
        ⟨[] ++ [{ season := 2024, base_salary := 4000000,
                  signing_bonus_proration := 1000000, roster_bonus := 0,
                  workout_bonus := 0, guaranteed_amount := 0 },
                { season := 2025, base_salary := 4000000,
                  signing_bonus_proration := 1000000, roster_bonus := 0,
                  workout_bonus := 0, guaranteed_amount := 0 },
                { season := 2026, base_salary := 4000000,
                  signing_bonus_proration := 1000000, roster_bonus := 0,
                  workout_bonus := 0, guaranteed_amount := 0 }]⟩ 2024 true =
        .ok { savings := hit - 1000000, dead_money := 1000000,
              dead_money_future := 2000000 } :=
  c1_pre_post_june1_split [] _ _ _ 2024 (by simp) rfl rfl rfl rfl rfl rfl
    rfl (by decide) (by decide) (by decide)

/-- C5: for every sign move whose application would leave the team's cap
space negative, `preview` returns `allowed = false` together with a
`CapInsufficient` reason carrying the exact shortfall (the amount by which
the post-move cap space falls below zero); for every move leaving cap
space non-negative the cap-room check passes. -/
theorem c5_cap_room_shortfall (st : EngineState) (m : Move)
    (hsign : m.txType = TxType.sign) :
    (st.capSpace + m.cap_delta < 0 →
      (preview st m).allowed = false ∧
      RejectReason.CapInsufficient (-(st.capSpace + m.cap_delta)) ∈
        (preview st m).reasons) ∧
    (0 ≤ st.capSpace + m.cap_delta →
      capRoomCheck (st.capSpace + m.cap_delta) = none) := by
  constructor
  · intro h
    have hc : capRoomCheck (st.capSpace + m.cap_delta) =
        some (RejectReason.CapInsufficient (-(st.capSpace + m.cap_delta))) := by
      unfold capRoomCheck
      rw [if_pos h]
    constructor
    · simp [preview, hc]
    · simp [preview, hc]
  · intro h
    unfold capRoomCheck
    rw [if_neg (by omega)]

/-- C5 witness: with 100 dollars of cap space, previewing a sign costing
101 is rejected with a `CapInsufficient` shortfall of exactly 1. -/
theorem c5_cap_room_shortfall_witness :
    (preview
      { capSpace := 100, rosterCount := 50, rosterLimit := 90,
        status := fun _ => PlayerStatus.active, transactions := [],
        nextId := 0 }
      { txType := TxType.sign, player_id := 7, cap_delta := -101,
        roster_delta := 1 }).allowed = false ∧
    RejectReason.CapInsufficient 1 ∈
      (preview
        { capSpace := 100, rosterCount := 50, rosterLimit := 90,
          status := fun _ => PlayerStatus.active, transactions := [],
          nextId := 0 }
        { txType := TxType.sign, player_id := 7, cap_delta := -101,
          roster_delta := 1 }).reasons := by
  have h := (c5_cap_room_shortfall
    { capSpace := 100, rosterCount := 50, rosterLimit := 90,
      status := fun _ => PlayerStatus.active, transactions := [],
      nextId := 0 }
    { txType := TxType.sign, player_id := 7, cap_delta := -101,
      roster_delta := 1 } rfl).1 (by decide)
  exact ⟨h.1, by simpa using h.2⟩

/-- C6: commit re-runs validation against the state current at commit time
rather than trusting any earlier preview: if the state changed between a
successful preview and the commit so that the move no longer validates,
the commit is rejected, the persisted state is returned unchanged (no
Transaction, leg or audit row, no roster/contract change), and the
rejection is exactly the same structured `PreviewResult` a preview of the
current state returns. -/
theorem c6_commit_revalidates (st0 st1 : EngineState) (m : Move)
    (h0 : (preview st0 m).allowed = true)
    (h1 : (preview st1 m).allowed = false) :
    commit st1 m = (st1, Except.error (preview st1 m)) := by
  simp [commit, h1]

/-- C6 witness: a sign that previewed fine against a 1,000,000-dollar cap
is rejected at commit time after the cap space dropped to 0, with the
state returned unchanged and the rejection equal to the current preview. -/
theorem c6_commit_revalidates_witness :
    commit
      { capSpace := 0, rosterCount := 50, rosterLimit := 90,
        status := fun _ => PlayerStatus.active, transactions := [],
        nextId := 0 }
      { txType := TxType.sign, player_id := 7, cap_delta := -500000,
        roster_delta := 1 } =
    ({ capSpace := 0, rosterCount := 50, rosterLimit := 90,
       status := fun _ => PlayerStatus.active, transactions := [],
       nextId := 0 },
     Except.error (preview
      { capSpace := 0, rosterCount := 50, rosterLimit := 90,
        status := fun _ => PlayerStatus.active, transactions := [],
        nextId := 0 }
      { txType := TxType.sign, player_id := 7, cap_delta := -500000,
        roster_delta := 1 })) :=
  c6_commit_revalidates
    { capSpace := 1000000, rosterCount := 50, rosterLimit := 90,
      status := fun _ => PlayerStatus.active, transactions := [],
      nextId := 0 } _ _ (by decide) (by decide)

/-- C7: committing a release and then undoing it by transaction id is an
exact round trip — the team's prior cap space and roster count and every
player's prior status are restored exactly, the transaction row stays in
place (with its leg and audit record intact) with status `undone`, and
nothing is deleted; and for every transaction of type sign or trade, undo
fails with `UnsupportedUndo` and changes nothing. -/
theorem c7_undo_roundtrip (st : EngineState) (m : Move)
    (hrel : m.txType = TxType.release)
    (hallow : (preview st m).allowed = true)
    (hfresh : ∀ t ∈ st.transactions, t.id ≠ st.nextId) :
    commit st m = (applyMove st m, Except.ok (mkTx st m)) ∧
    (undo (applyMove st m) st.nextId).2 =
      Except.ok { mkTx st m with status := TxStatus.undone } ∧
    (undo (applyMove st m) st.nextId).1.capSpace = st.capSpace ∧
    (undo (applyMove st m) st.nextId).1.rosterCount = st.rosterCount ∧
    (undo (applyMove st m) st.nextId).1.status = st.status ∧
    (undo (applyMove st m) st.nextId).1.transactions =
      st.transactions ++ [{ mkTx st m with status := TxStatus.undone }] ∧
    (∀ (st' : EngineState) (txId : Nat) (tx : Transaction),
      st'.transactions.find? (fun t => t.id == txId) = some tx →
      (tx.txType = TxType.sign ∨ tx.txType = TxType.trade) →
      undo st' txId = (st', Except.error UndoError.UnsupportedUndo)) := by
  have hfindFront : st.transactions.find? (fun t => t.id == st.nextId) = none := by
    rw [List.find?_eq_none]
    intro t ht
    simpa using hfresh t ht
  have hfind : (applyMove st m).transactions.find?
      (fun t => t.id == st.nextId) = some (mkTx st m) := by
    simp [applyMove, List.find?_append, hfindFront, mkTx]
  have htx : (mkTx st m).txType = TxType.release := by
    simpa [mkTx] using hrel
  have hundo : undo (applyMove st m) st.nextId =
      ({ capSpace := (applyMove st m).capSpace - (mkTx st m).audit.cap_delta,
         rosterCount :=
           (applyMove st m).rosterCount - (mkTx st m).audit.roster_delta,
         rosterLimit := (applyMove st m).rosterLimit,
         status := fun pid =>
           if pid = (mkTx st m).audit.player_id then
             (mkTx st m).audit.prior_status
           else (applyMove st m).status pid,
         transactions := (applyMove st m).transactions.map (fun t =>
           if t.id == st.nextId then { t with status := TxStatus.undone }
           else t),
         nextId := (applyMove st m).nextId },
       Except.ok { mkTx st m with status := TxStatus.undone }) := by
    unfold undo
    simp only [hfind]
    rw [if_pos htx]
  have hmapid : st.transactions.map (fun t =>
      if t.id == st.nextId then { t with status := TxStatus.undone } else t) =
      st.transactions := by
    conv_rhs => rw [← List.map_id st.transactions]
    apply List.map_congr_left
    intro t ht
    simp [hfresh t ht]
  refine ⟨by simp [commit, hallow], ?_, ?_, ?_, ?_, ?_, ?_⟩
  · rw [hundo]
  · rw [hundo]
    simp [applyMove, mkTx]
  · rw [hundo]
    simp [applyMove, mkTx]
  · rw [hundo]
    funext pid
    by_cases hp : pid = m.player_id
    · simp [applyMove, mkTx, hp]
    · simp [applyMove, mkTx, hp]
  · rw [hundo]
    have happ : (applyMove st m).transactions =
        st.transactions ++ [mkTx st m] := rfl
    rw [happ, List.map_append, hmapid]
    have hone : [mkTx st m].map (fun t =>
        if t.id == st.nextId then { t with status := TxStatus.undone }
        else t) = [{ mkTx st m with status := TxStatus.undone }] := by
      simp [mkTx]
    rw [hone]
  · intro st' txId tx hfind' htype
    have hne : ¬ tx.txType = TxType.release := by
      rcases htype with h | h <;> simp [h]
    unfold undo
    simp only [hfind']
    rw [if_neg hne]

/-- C7 witness: committing a release of player 5 (freeing 30 dollars of
cap, roster −1) against a concrete state and undoing the resulting
transaction restores the prior cap space exactly, and the returned row is
the original transaction with status `undone`. -/
theorem c7_undo_roundtrip_witness :
    (undo (applyMove
      { capSpace := 100, rosterCount := 53, rosterLimit := 90,
        status := fun _ => PlayerStatus.active, transactions := [],
        nextId := 0 }
      { txType := TxType.release, player_id := 5, cap_delta := 30,
        roster_delta := -1 })
      ({ capSpace := 100, rosterCount := 53, rosterLimit := 90,
         status := fun _ => PlayerStatus.active, transactions := [],
         nextId := 0 } : EngineState).nextId).1.capSpace = 100 ∧
    (undo (applyMove
      { capSpace := 100, rosterCount := 53, rosterLimit := 90,
        status := fun _ => PlayerStatus.active, transactions := [],
        nextId := 0 }
      { txType := TxType.release, player_id := 5, cap_delta := 30,
        roster_delta := -1 })
      ({ capSpace := 100, rosterCount := 53, rosterLimit := 90,
         status := fun _ => PlayerStatus.active, transactions := [],
         nextId := 0 } : EngineState).nextId).2 =
      Except.ok { mkTx
        { capSpace := 100, rosterCount := 53, rosterLimit := 90,
          status := fun _ => PlayerStatus.active, transactions := [],
          nextId := 0 }
        { txType := TxType.release, player_id := 5, cap_delta := 30,
          roster_delta := -1 } with status := TxStatus.undone } := by
  have h := c7_undo_roundtrip
    { capSpace := 100, rosterCount := 53, rosterLimit := 90,
      status := fun _ => PlayerStatus.active, transactions := [],
      nextId := 0 }
    { txType := TxType.release, player_id := 5, cap_delta := 30,
      roster_delta := -1 } rfl (by decide) (by intro t ht; cases ht)
  exact ⟨h.2.2.1, h.2.1⟩

/-- C8: `release_savings` is deterministic — for any fixed input triple
any two calls agree, with no hidden state or clock in the model, and two
previews over identical state and move agree likewise (the embedding makes
both pure functions of exactly their declared inputs). -/
theorem c8_release_savings_deterministic (c c' : Contract) (s s' : Nat)
    (b b' : Bool) (hc : c = c') (hs : s = s') (hb : b = b') :
    release_savings c s b = release_savings c' s' b' ∧
    ∀ (st st' : EngineState) (m m' : Move), st = st' → m = m' →
      preview st m = preview st' m' := by
  subst hc hs hb
  refine ⟨rfl, ?_⟩
  intro st st' m m' h1 h2
  subst h1 h2
  rfl

/-- C8 witness: two calls of `release_savings` on the same concrete
contract, season and flag return the same pair. -/
theorem c8_release_savings_deterministic_witness :
    release_savings
      ⟨[{ season := 2024, base_salary := 1000000,
          signing_bonus_proration := 500000, roster_bonus := 0,
          workout_bonus := 0, guaranteed_amount := 0 }]⟩ 2024 false =
    release_savings
      ⟨[{ season := 2024, base_salary := 1000000,
          signing_bonus_proration := 500000, roster_bonus := 0,
          workout_bonus := 0, guaranteed_amount := 0 }]⟩ 2024 false :=
  (c8_release_savings_deterministic _ _ _ _ _ _ rfl rfl rfl).1

/-- C9: every release request the transaction panel sends — whether built
by `handlePreviewRelease` or by `handleCommitRelease` — is of type
`release` and carries the payload `{ player_id: <selected player>,
post_june_1: false }`; the frontend never issues a post–June-1 release
through this panel. -/
theorem c9_panel_never_post_june1 (tc : Option String) (p : Option FePlayer)
    (req : FeTransactionRequest)
    (h : handlePreviewRelease tc p = some req ∨
      handleCommitRelease tc p = some req) :
    req.txType = TxType.release ∧ req.payload.post_june_1 = false ∧
    ∃ pl, p = some pl ∧ req.payload.player_id = pl.id := by
  rcases h with h | h <;>
  · cases tc with
    | none => simp [handlePreviewRelease, handleCommitRelease] at h
    | some s =>
      cases p with
      | none => simp [handlePreviewRelease, handleCommitRelease] at h
      | some pl =>
        simp only [handlePreviewRelease, handleCommitRelease] at h
        by_cases he : s.isEmpty = true
        · rw [if_pos he] at h
          cases h
        · rw [if_neg he] at h
          injection h with h2
          subst h2
          exact ⟨rfl, rfl, pl, rfl, rfl⟩

/-- C9 witness: with team "ARI" and player 123 selected, the panel's
request is a release with payload player 123 and `post_june_1 = false`. -/
theorem c9_panel_never_post_june1_witness :
    ({ team_code := "ARI", txType := TxType.release,
       payload := { player_id := 123, post_june_1 := false } } :
        FeTransactionRequest).txType = TxType.release ∧
    ({ team_code := "ARI", txType := TxType.release,
       payload := { player_id := 123, post_june_1 := false } } :
        FeTransactionRequest).payload.post_june_1 = false ∧
    ∃ pl, (some { id := 123, position := "QB" } : Option FePlayer) = some pl ∧
      ({ team_code := "ARI", txType := TxType.release,
         payload := { player_id := 123, post_june_1 := false } } :
          FeTransactionRequest).payload.player_id = pl.id :=
  c9_panel_never_post_june1 (some "ARI")
    (some { id := 123, position := "QB" })
    { team_code := "ARI", txType := TxType.release,
      payload := { player_id := 123, post_june_1 := false } }
    (Or.inl (by decide))

end NFLGM
